import Mathlib

/-!
Shallow embedding of the pynector client dispatcher
(`src/pynector/client.py`) and the transport factory registry
(`src/pynector/transport/registry.py`).

Python values are modelled concretely: byte strings as `List Nat`,
option mappings as association lists, exceptions as the inductive
`PyExc` (covering both the pynector taxonomy and the Python built-ins
the code can raise).  Cooperative scheduling is modelled by explicit
schedule parameters: the completion order of batch tasks and the
`cancel_called` flag of a `move_on_after` scope.
-/

namespace Pynector

/-- Byte strings (`bytes`): sequences of byte values. -/
abbrev Bytes := List Nat

/-- Keyword-option mappings (`**options`): association lists, first
binding wins on lookup. -/
abbrev Options := List (String × Nat)

/-- `dict.update` semantics of `merged_options = options.copy();
merged_options.update(request_options)`: the per-request bindings
shadow the common ones. -/
def mergeOptions (common perRequest : Options) : Options :=
  perRequest ++ common

/-- Python exceptions the dispatcher and registry can raise or store:
the pynector taxonomy (`TransportError`, `TimeoutError`,
`ConfigurationError`, `PynectorError`), the built-in `ConnectionError`,
the built-in `KeyError` (dict lookup miss), the built-in `TypeError`
(e.g. from `raise None`), and anything else. -/
inductive PyExc where
  | transportError (msg : String)
  | timeoutError (msg : String)
  | configurationError (msg : String)
  | pynectorError (msg : String)
  | connectionError (msg : String)
  | keyError (key : String)
  | typeError (msg : String)
  | otherError (msg : String)
deriving DecidableEq, Repr

/-- `isinstance(e, PynectorError)`: membership in the library's error
taxonomy (whose root umbrella is `PynectorError`). -/
def PyExc.isPynectorError : PyExc → Bool
  | .transportError _ => true
  | .timeoutError _ => true
  | .configurationError _ => true
  | .pynectorError _ => true
  | _ => false

/-- `isinstance(e, TransportError)`. -/
def PyExc.isTransportError : PyExc → Bool
  | .transportError _ => true
  | _ => false

/-- The message text carried by an exception (`str(e)`). -/
def PyExc.msg : PyExc → String
  | .transportError m => m
  | .timeoutError m => m
  | .configurationError m => m
  | .pynectorError m => m
  | .connectionError m => m
  | .keyError k => k
  | .typeError m => m
  | .otherError m => m

/-- Whether an `Except` result is a success. -/
def exceptIsOk {ε α : Type} : Except ε α → Bool
  | .ok _ => true
  | .error _ => false

/-! ## Transport behaviour and the single-request path -/

/-- Observable behaviour of the bound transport during one request:
whether `connect` (inside `_get_transport`) raises, whether `send`
raises, the byte chunks `receive()` yields, and whether the `receive`
iteration raises after its chunks. -/
structure TransportBehavior where
  connectExc : Option PyExc
  sendExc : Option PyExc
  recvChunks : List Bytes
  recvExc : Option PyExc

/-- Error surfaced by `_get_transport` (client.py lines 91-136): a
`PynectorError` is re-raised as is, a `ConnectionError` becomes
`TransportError("Connection error: ...")`, anything else becomes
`ConfigurationError("Failed to initialize transport: ...")`. -/
def get_transport_error (t : TransportBehavior) : Option PyExc :=
  match t.connectExc with
  | none => none
  | some e =>
    if e.isPynectorError then some e
    else
      match e with
      | .connectionError m => some (.transportError ("Connection error: " ++ m))
      | e => some (.configurationError ("Failed to initialize transport: " ++ e.msg))

/-- The body of `_perform_request`'s `try` block: `send(data)`, then
`result = b""` accumulating every chunk of `receive()` by `+=`. -/
def requestBody (t : TransportBehavior) : Except PyExc Bytes :=
  match t.sendExc with
  | some e => .error e
  | none =>
    match t.recvExc with
    | some e => .error e
    | none => .ok (t.recvChunks.foldl (· ++ ·) [])

/-- `_perform_request` (client.py lines 250-277): obtain the transport,
run the send/receive body, translating `ConnectionError` to
`TransportError`, re-raising taxonomy errors, and wrapping anything
else in `PynectorError("Unexpected error: ...")`. -/
def perform_request (t : TransportBehavior) : Except PyExc Bytes :=
  match get_transport_error t with
  | some e => .error e
  | none =>
    match requestBody t with
    | .ok v => .ok v
    | .error e =>
      match e with
      | .connectionError m => .error (.transportError ("Connection error: " ++ m))
      | e =>
        if e.isPynectorError then .error e
        else .error (.pynectorError ("Unexpected error: " ++ e.msg))

/-- Message of the dispatcher's per-request `TimeoutError`. -/
def timeoutMsg (t : ℚ) : String :=
  "Request timed out after " ++ toString t ++ " seconds"

/-- Timeout resolution at the top of `_perform_request_with_timeout`:
`if timeout is None: timeout = self._get_config("timeout")`. -/
def effectiveTimeout (timeout configTimeout : Option ℚ) : Option ℚ :=
  match timeout with
  | none => configTimeout
  | some x => some x

/-- `_perform_request_with_timeout` (client.py lines 176-248).  When the
resolved timeout is truthy (`if timeout:`), the body runs inside
`move_on_after(timeout)`; `deadlineFired` models the scope's
`cancel_called` flag: when it is set the body was cancelled and
`TimeoutError` is raised, otherwise the body's result stands.  A falsy
or absent timeout runs the body with no scope. -/
def perform_request_with_timeout (t : TransportBehavior)
    (timeout configTimeout : Option ℚ) (deadlineFired : Bool) :
    Except PyExc Bytes :=
  match effectiveTimeout timeout configTimeout with
  | some x =>
    if x ≠ 0 then
      if deadlineFired then .error (.timeoutError (timeoutMsg x))
      else perform_request t
    else perform_request t
  | none => perform_request t

/-! ## Configuration lookup -/

/-- A Python value as stored in configuration: `none` models Python's
`None`. -/
abbrev PyVal := Option Nat

/-- `_get_config` (client.py lines 69-89).  `instanceConfig` models the
`key in self._config` / `self._config[key]` pair (`some v` iff the key
is present, where the stored value `v` may itself be Python `None`);
`envConfig` models the external collaborator `get_env_config`, whose
result is tested with `is not None`. -/
def get_config (instanceConfig : String → Option PyVal)
    (envConfig : String → PyVal) (key : String) (dflt : PyVal) : PyVal :=
  match instanceConfig key with
  | some v => v
  | none =>
    match envConfig key with
    | some d => some d
    | none => dflt

/-! ## Transport factory registry -/

/-- A transport factory: `create_transport(**kwargs)` produces a
transport, identified here by a numeric handle. -/
structure TransportFactory where
  createTransport : Options → Nat

/-- `TransportFactoryRegistry` (registry.py): the `_factories` dict,
modelled as a partial map from names to factories. -/
structure TransportFactoryRegistry where
  factories : String → Option TransportFactory

/-- `register(name, factory)`: `self._factories[name] = factory`
(silent overwrite). -/
def TransportFactoryRegistry.register (r : TransportFactoryRegistry)
    (name : String) (f : TransportFactory) : TransportFactoryRegistry :=
  ⟨fun n => if n = name then some f else r.factories n⟩

/-- `get(name)`: `return self._factories[name]` — a missing name raises
the built-in `KeyError`, as the method's docstring states. -/
def TransportFactoryRegistry.get (r : TransportFactoryRegistry)
    (name : String) : Except PyExc TransportFactory :=
  match r.factories name with
  | some f => .ok f
  | none => .error (.keyError name)

/-- `create_transport(name, **kwargs)`: `factory = self.get(name);
return factory.create_transport(**kwargs)`. -/
def TransportFactoryRegistry.create_transport (r : TransportFactoryRegistry)
    (name : String) (kwargs : Options) : Except PyExc Nat :=
  match r.get name with
  | .ok f => .ok (f.createTransport kwargs)
  | .error e => .error e

/-- The registry with nothing registered. -/
def emptyRegistry : TransportFactoryRegistry := ⟨fun _ => none⟩

/-! ## Client construction and close -/

/-- The dispatcher state the close paths read: the transport reference
(`some t` names the bound transport object), the ownership flag, and
the init flag. -/
structure ClientState where
  transport : Option Nat
  ownsTransport : Bool
  transportInitialized : Bool
deriving DecidableEq, Repr

/-- Operations the close paths can perform on a transport object. -/
inductive TransportOp where
  | disconnect (t : Nat)
deriving DecidableEq, Repr

/-- `Pynector.__init__` transport fields (client.py lines 47-50):
`_owns_transport = transport is None`. -/
def initClient (transport : Option Nat) : ClientState :=
  { transport := transport
    ownsTransport := transport.isNone
    transportInitialized := false }

/-- `_validate_config` (client.py lines 58-67): only when the client
owns its transport is `transport_type` checked against the registry's
registered names; an unknown type raises `ConfigurationError`. -/
def validate_config (ownsTransport : Bool) (transportType : String)
    (registeredNames : List String) : Option PyExc :=
  if ownsTransport then
    if transportType ∈ registeredNames then none
    else some (.configurationError
      ("Invalid transport type: " ++ transportType ++ ". Available types: "
        ++ String.intercalate ", " registeredNames))
  else none

/-- The error, if any, raised by `Pynector.__init__(transport, transport_type)`:
construction stores the fields then runs `_validate_config`. -/
def pynectorInitError (transport : Option Nat) (transportType : String)
    (registeredNames : List String) : Option PyExc :=
  validate_config (initClient transport).ownsTransport transportType registeredNames

/-- `aclose` (client.py lines 520-540): when the client owns a bound
transport, `disconnect` is called on it and the `finally` block clears
the reference and the init flag; otherwise nothing happens.  Returns
the new state and the transport operations performed. -/
def aclose (s : ClientState) : ClientState × List TransportOp :=
  if s.ownsTransport then
    match s.transport with
    | some t =>
      ({ s with transport := none, transportInitialized := false },
        [.disconnect t])
    | none => (s, [])
  else (s, [])

/-- `__aexit__` (client.py lines 549-559): same condition and effect as
`aclose` (without the try/except wrapper). -/
def aexit (s : ClientState) : ClientState × List TransportOp :=
  if s.ownsTransport then
    match s.transport with
    | some t =>
      ({ s with transport := none, transportInitialized := false },
        [.disconnect t])
    | none => (s, [])
  else (s, [])

/-! ## Batch requests

`_perform_batch_request` (client.py lines 327-447) spawns one task per
request in a task group, each writing its outcome into its own slot of
a pre-allocated `results = [None] * len(requests)` list.  The
scheduling nondeterminism is captured by a `BatchRun`: the list of
indices whose tasks ran to completion, in completion order, and whether
the `move_on_after` scope's deadline fired (`scope.cancel_called`). -/

/-- A slot of the `results` list: the `None` sentinel, a successful
value, or a stored exception value. -/
inductive Slot where
  | unset
  | value (v : Bytes)
  | error (e : PyExc)
deriving DecidableEq, Repr

/-- A batch schedule: `order` is the sequence of task indices that ran
to completion (tasks cancelled by the deadline are absent), and
`deadlineFired` is the outer scope's `cancel_called` flag. -/
structure BatchRun where
  order : List Nat
  deadlineFired : Bool

/-- What task `i` computes: `self.request(data, **merged_options)` on
`requests[i]`, with the per-request options shadowing the common ones.
`reqFn` is the oracle for the inner `request` call. -/
def requestOutcome (reqFn : Bytes → Options → Except PyExc Bytes)
    (common : Options) (requests : List (Bytes × Options)) (i : Nat) :
    Except PyExc Bytes :=
  let item := requests.getD i ([], [])
  reqFn item.1 (mergeOptions common item.2)

/-- `results[index] = result` / `results[index] = e`: the slot stored
by a completed task. -/
def outcomeSlot : Except PyExc Bytes → Slot
  | .ok v => .value v
  | .error e => .error e

/-- The slot writes performed by the completed tasks, in completion
order, over an initial slot list. -/
def writeAll (f : Nat → Slot) (init : List Slot) (order : List Nat) :
    List Slot :=
  order.foldl (fun acc i => acc.set i (f i)) init

/-- The `results` list after the task phase: `[None] * len(requests)`
with each completed task's slot written. -/
def runTasks (reqFn : Bytes → Options → Except PyExc Bytes)
    (common : Options) (requests : List (Bytes × Options))
    (order : List Nat) : List Slot :=
  writeAll (fun i => outcomeSlot (requestOutcome reqFn common requests i))
    (List.replicate requests.length Slot.unset) order

/-- The exception escaping the task group, if any: a task re-raises its
exception only when `raise_on_error` is set (`process_request`, lines
379-382), and the first such re-raise cancels the group. -/
def escapedTaskExc (reqFn : Bytes → Options → Except PyExc Bytes)
    (common : Options) (requests : List (Bytes × Options))
    (raiseOnError : Bool) (order : List Nat) : Option PyExc :=
  if raiseOnError then
    order.findSome? (fun i =>
      match requestOutcome reqFn common requests i with
      | .error e => some e
      | .ok _ => none)
  else none

/-- Message of the `TimeoutError` raised for a timed-out batch. -/
def batchTimeoutMsg (t : ℚ) : String :=
  "Batch request timed out after " ++ toString t ++ " seconds"

/-- `for i, result in enumerate(results): if result is None:
results[i] = e` — fill every not-yet-set slot with an exception
value. -/
def fillUnset (e : PyExc) (slots : List Slot) : List Slot :=
  slots.map (fun s =>
    match s with
    | .unset => .error e
    | s => s)

/-- `_perform_batch_request` (client.py lines 327-447).  The task phase
produces the slot list; an exception escaping the task group reaches
the outer `except` (re-raised under `raise_on_error`, else used to fill
unset slots); otherwise, when a truthy timeout was set and the scope's
deadline fired, `raise_on_error` raises `TimeoutError` and its absence
fills every unset slot with a `TimeoutError` value; otherwise the slot
list is returned. -/
def perform_batch_request (reqFn : Bytes → Options → Except PyExc Bytes)
    (common : Options) (requests : List (Bytes × Options))
    (timeout : Option ℚ) (raiseOnError : Bool) (run : BatchRun) :
    Except PyExc (List Slot) :=
  let slots := runTasks reqFn common requests run.order
  match escapedTaskExc reqFn common requests raiseOnError run.order with
  | some e =>
    if raiseOnError then .error e
    else .ok (fillUnset e slots)
  | none =>
    match timeout with
    | some t =>
      if t ≠ 0 then
        if run.deadlineFired then
          if raiseOnError then .error (.timeoutError (batchTimeoutMsg t))
          else .ok (fillUnset (.timeoutError (timeoutMsg t)) slots)
        else .ok slots
      else .ok slots
    | none => .ok slots

/-- The tasks spawned by the batch loop `for i, (data, request_options)
in enumerate(requests): tg.start_soon(process_request, i, ...)`: one
per request index. -/
def spawnedTasks (requests : List (Bytes × Options)) : List Nat :=
  List.range requests.length

/-! ## Retry -/

/-- Trace of one `request_with_retry` call: the final result (or the
propagated exception), the number of invocations of `request`, and the
sleep durations in order. -/
structure RetryTrace where
  result : Except PyExc Bytes
  calls : Nat
  sleeps : List ℚ
deriving Repr

/-- The `for attempt in range(max_retries)` loop of `request_with_retry`
(client.py lines 505-518), by remaining iterations (`fuel` iterations
remain, the current one being `attempt`).  Success returns; a
`TransportError` is recorded as `last_error`, then either a backoff
sleep of `retry_delay * 2 ** attempt` precedes the next iteration
(`attempt < max_retries - 1`) or the loop breaks; any other exception
propagates uncaught.  After the loop, `raise last_error` — which, when
no attempt ever ran, is `raise None`, a Python `TypeError`. -/
def retryLoop (req : Nat → Except PyExc Bytes) (retryDelay : ℚ) :
    Nat → Nat → Option PyExc → RetryTrace
  | 0, _, lastError =>
    ⟨match lastError with
      | some e => .error e
      | none => .error (.typeError "exceptions must derive from BaseException"),
      0, []⟩
  | fuel + 1, attempt, _ =>
    match req attempt with
    | .ok v => ⟨.ok v, 1, []⟩
    | .error e =>
      if e.isTransportError then
        if fuel = 0 then ⟨.error e, 1, []⟩
        else
          let rest := retryLoop req retryDelay fuel (attempt + 1) (some e)
          ⟨rest.result, rest.calls + 1, retryDelay * 2 ^ attempt :: rest.sleeps⟩
      else ⟨.error e, 1, []⟩

/-- `request_with_retry(data, max_retries, retry_delay)` (client.py
lines 449-518, untraced branch; the traced branch runs the same loop):
`last_error = None`, then the attempt loop.  `req k` is the oracle for
attempt `k`'s inner `request` call. -/
def request_with_retry (req : Nat → Except PyExc Bytes)
    (maxRetries : Nat) (retryDelay : ℚ) : RetryTrace :=
  retryLoop req retryDelay maxRetries 0 none


/-- An attempt outcome that the retry loop's `except TransportError`
clause catches. -/
def isTransportFailure : Except PyExc Bytes → Bool
  | .error e => e.isTransportError
  | .ok _ => false

theorem writeAll_length (f : Nat → Slot) (order : List Nat) :
    ∀ init : List Slot, (writeAll f init order).length = init.length := by
  induction order with
  | nil => intro init; rfl
  | cons i order ih =>
    intro init
    show (writeAll f (init.set i (f i)) order).length = init.length
    rw [ih, List.length_set]

theorem writeAll_getElem? (f : Nat → Slot) (order : List Nat) :
    ∀ (init : List Slot) (j : Nat), j < init.length →
      (writeAll f init order)[j]? =
        if j ∈ order then some (f j) else init[j]? := by
  induction order with
  | nil => intro init j _; simp [writeAll]
  | cons i order ih =>
    intro init j hj
    show (writeAll f (init.set i (f i)) order)[j]? = _
    rw [ih (init.set i (f i)) j (by simpa using hj)]
    by_cases hmem : j ∈ order
    · simp [hmem]
    · by_cases hij : j = i
      · subst hij
        simp [hmem, List.getElem?_set_eq_of_lt (f j) hj]
      · rw [List.getElem?_set_ne (by omega)]
        simp [hmem, List.mem_cons, hij]

theorem runTasks_length (reqFn : Bytes → Options → Except PyExc Bytes)
    (common : Options) (requests : List (Bytes × Options)) (order : List Nat) :
    (runTasks reqFn common requests order).length = requests.length := by
  unfold runTasks
  rw [writeAll_length, List.length_replicate]

theorem runTasks_getElem? (reqFn : Bytes → Options → Except PyExc Bytes)
    (common : Options) (requests : List (Bytes × Options)) (order : List Nat)
    (j : Nat) (hj : j < requests.length) :
    (runTasks reqFn common requests order)[j]? =
      if j ∈ order then some (outcomeSlot (requestOutcome reqFn common requests j))
      else some Slot.unset := by
  unfold runTasks
  rw [writeAll_getElem? _ _ _ j (by simpa using hj)]
  by_cases hmem : j ∈ order
  · simp [hmem]
  · simp [hmem, List.getElem?_replicate, hj]

theorem perform_batch_request_no_exc (reqFn : Bytes → Options → Except PyExc Bytes)
    (common : Options) (requests : List (Bytes × Options))
    (timeout : Option ℚ) (raiseOnError : Bool) (run : BatchRun)
    (he : escapedTaskExc reqFn common requests raiseOnError run.order = none)
    (hdl : run.deadlineFired = false) :
    perform_batch_request reqFn common requests timeout raiseOnError run =
      .ok (runTasks reqFn common requests run.order) := by
  unfold perform_batch_request
  rw [he]
  rcases timeout with _ | t
  · rfl
  · by_cases ht : t = 0
    · simp [ht]
    · simp [ht, hdl]

theorem perform_batch_request_exc (reqFn : Bytes → Options → Except PyExc Bytes)
    (common : Options) (requests : List (Bytes × Options))
    (timeout : Option ℚ) (run : BatchRun) (e : PyExc)
    (he : escapedTaskExc reqFn common requests true run.order = some e) :
    perform_batch_request reqFn common requests timeout true run = .error e := by
  unfold perform_batch_request
  rw [he]
  rfl

theorem perform_batch_request_deadline (reqFn : Bytes → Options → Except PyExc Bytes)
    (common : Options) (requests : List (Bytes × Options))
    (t : ℚ) (raiseOnError : Bool) (run : BatchRun)
    (he : escapedTaskExc reqFn common requests raiseOnError run.order = none)
    (ht : t ≠ 0) (hdl : run.deadlineFired = true) :
    perform_batch_request reqFn common requests (some t) raiseOnError run =
      if raiseOnError then .error (.timeoutError (batchTimeoutMsg t))
      else .ok (fillUnset (.timeoutError (timeoutMsg t))
        (runTasks reqFn common requests run.order)) := by
  unfold perform_batch_request
  rw [he]
  simp [ht, hdl]

theorem escapedTaskExc_false (reqFn : Bytes → Options → Except PyExc Bytes)
    (common : Options) (requests : List (Bytes × Options)) (order : List Nat) :
    escapedTaskExc reqFn common requests false order = none := rfl


/-- Claim C1: a list returned by `batch_request` has exactly one slot per
request, and slot `i` holds the result (or the stored exception) of
processing `requests[i]`, regardless of the order in which the spawned
tasks complete (any permutation of the task indices). -/
theorem batch_request_slots (reqFn : Bytes → Options → Except PyExc Bytes)
    (common : Options) (requests : List (Bytes × Options))
    (timeout : Option ℚ) (raiseOnError : Bool) (run : BatchRun)
    (res : List Slot)
    (hperm : run.order.Perm (List.range requests.length))
    (hdl : run.deadlineFired = false)
    (hres : perform_batch_request reqFn common requests timeout raiseOnError run
      = .ok res) :
    res.length = requests.length ∧
    ∀ i, i < requests.length →
      res[i]? = some (outcomeSlot (requestOutcome reqFn common requests i)) := by
  have hmem : ∀ j : Nat, j ∈ run.order ↔ j < requests.length := fun j => by
    rw [hperm.mem_iff, List.mem_range]
  have hres' : res = runTasks reqFn common requests run.order := by
    rcases he : escapedTaskExc reqFn common requests raiseOnError run.order with _ | e
    · rw [perform_batch_request_no_exc reqFn common requests timeout raiseOnError run
        he hdl] at hres
      exact (Except.ok.inj hres).symm
    · cases raiseOnError with
      | false => rw [escapedTaskExc_false] at he; exact absurd he (by simp)
      | true =>
        rw [perform_batch_request_exc reqFn common requests timeout run e he] at hres
        exact absurd hres (by simp)
  subst hres'
  refine ⟨runTasks_length reqFn common requests run.order, ?_⟩
  intro i hi
  rw [runTasks_getElem? reqFn common requests run.order i hi]
  simp [(hmem i).mpr hi]

theorem batch_request_slots_witness :
    ([Slot.value [1, 9], Slot.value [2, 9], Slot.value [3, 9]].length
      = [(([1] : Bytes), ([] : Options)), ([2], []), ([3], [])].length) ∧
    ∀ i, i < [(([1] : Bytes), ([] : Options)), ([2], []), ([3], [])].length →
      [Slot.value [1, 9], Slot.value [2, 9], Slot.value [3, 9]][i]? =
        some (outcomeSlot (requestOutcome (fun p _ => .ok (p ++ [9])) []
          [([1], []), ([2], []), ([3], [])] i)) :=
  batch_request_slots (fun p _ => .ok (p ++ [9])) []
    [([1], []), ([2], []), ([3], [])] none false ⟨[2, 0, 1], false⟩
    [Slot.value [1, 9], Slot.value [2, 9], Slot.value [3, 9]]
    (by decide) rfl rfl


/-- Claim C2: when a batch's outer deadline fires before all tasks have
finished, `raise_on_error = true` makes the call raise `TimeoutError`
(provided no completed task had re-raised first, which is what makes the
deadline branch reachable), and `raise_on_error = false` makes the call
return a full-length list in which every slot set by a completed task
holds that task's outcome, every slot still unset at the deadline holds
a `TimeoutError` value, and no slot is left with the `None` sentinel. -/
theorem batch_request_timeout (reqFn : Bytes → Options → Except PyExc Bytes)
    (common : Options) (requests : List (Bytes × Options))
    (t : ℚ) (run : BatchRun)
    (ht : t ≠ 0) (hdl : run.deadlineFired = true) :
    ((∀ i ∈ run.order, exceptIsOk (requestOutcome reqFn common requests i) = true) →
      perform_batch_request reqFn common requests (some t) true run =
        .error (.timeoutError (batchTimeoutMsg t))) ∧
    ∀ res, perform_batch_request reqFn common requests (some t) false run = .ok res →
      res.length = requests.length ∧
      (∀ i, i < requests.length → i ∈ run.order →
        res[i]? = some (outcomeSlot (requestOutcome reqFn common requests i))) ∧
      (∀ i, i < requests.length → i ∉ run.order →
        res[i]? = some (.error (.timeoutError (timeoutMsg t)))) ∧
      (∀ i, i < requests.length → res[i]? ≠ some Slot.unset) := by
  constructor
  · intro hok
    have he : escapedTaskExc reqFn common requests true run.order = none := by
      unfold escapedTaskExc
      rw [if_pos rfl, List.findSome?_eq_none_iff]
      intro x hx
      rcases hr : requestOutcome reqFn common requests x with e | v
      · have := hok x hx
        rw [hr] at this
        exact absurd this (by simp [exceptIsOk])
      · rfl
    rw [perform_batch_request_deadline reqFn common requests t true run he ht hdl]
    rfl
  · intro res hres
    have he : escapedTaskExc reqFn common requests false run.order = none :=
      escapedTaskExc_false reqFn common requests run.order
    rw [perform_batch_request_deadline reqFn common requests t false run he ht hdl]
      at hres
    simp only [Bool.false_eq_true, if_false] at hres
    have hres' : res = fillUnset (.timeoutError (timeoutMsg t))
        (runTasks reqFn common requests run.order) := (Except.ok.inj hres).symm
    subst hres'
    refine ⟨?_, ?_, ?_, ?_⟩
    · unfold fillUnset
      rw [List.length_map, runTasks_length]
    · intro i hi hmem
      unfold fillUnset
      rw [List.getElem?_map, runTasks_getElem? reqFn common requests run.order i hi,
        if_pos hmem]
      rcases requestOutcome reqFn common requests i with e | v <;> rfl
    · intro i hi hmem
      unfold fillUnset
      rw [List.getElem?_map, runTasks_getElem? reqFn common requests run.order i hi,
        if_neg hmem]
      rfl
    · intro i hi
      unfold fillUnset
      rw [List.getElem?_map, runTasks_getElem? reqFn common requests run.order i hi]
      by_cases hmem : i ∈ run.order
      · rw [if_pos hmem]
        rcases requestOutcome reqFn common requests i with e | v <;> simp [outcomeSlot]
      · rw [if_neg hmem]
        simp

theorem batch_request_timeout_witness :
    ((2 : ℚ) ≠ 0) ∧
    (perform_batch_request (fun p _ => .ok p) []
      [(([1] : Bytes), ([] : Options)), ([2], []), ([3], [])] (some 2) true
      ⟨[1], true⟩ = .error (.timeoutError (batchTimeoutMsg 2))) ∧
    ∀ res, perform_batch_request (fun p _ => .ok p) []
        [(([1] : Bytes), ([] : Options)), ([2], []), ([3], [])] (some 2) false
        ⟨[1], true⟩ = .ok res →
      res.length = 3 ∧
      (∀ i, i < 3 → i ∈ [1] →
        res[i]? = some (outcomeSlot (requestOutcome (fun p _ => .ok p) []
          [([1], []), ([2], []), ([3], [])] i))) ∧
      (∀ i, i < 3 → i ∉ [1] →
        res[i]? = some (.error (.timeoutError (timeoutMsg 2)))) ∧
      (∀ i, i < 3 → res[i]? ≠ some Slot.unset) := by
  have h := batch_request_timeout (fun p _ => .ok p) []
    [([1], []), ([2], []), ([3], [])] 2 ⟨[1], true⟩ (by norm_num) rfl
  exact ⟨by norm_num, h.1 (by decide), h.2⟩

/-- Claim C8: `batch_request` on an empty request list spawns no tasks
(so no transport operation can be performed — the result is the same
for every transport oracle `reqFn`) and returns the empty list, for any
timeout and `raise_on_error` setting. -/
theorem batch_request_empty (reqFn : Bytes → Options → Except PyExc Bytes)
    (common : Options) (timeout : Option ℚ) (raiseOnError : Bool) (run : BatchRun)
    (horder : ∀ i ∈ run.order, i ∈ spawnedTasks [])
    (hdl : run.deadlineFired = false) :
    spawnedTasks ([] : List (Bytes × Options)) = [] ∧
    perform_batch_request reqFn common [] timeout raiseOnError run = .ok [] := by
  have hnil : run.order = [] := by
    rcases h : run.order with _ | ⟨i, rest⟩
    · rfl
    · have := horder i (by rw [h]; exact List.mem_cons_self i rest)
      simp [spawnedTasks] at this
  refine ⟨rfl, ?_⟩
  have he : escapedTaskExc reqFn common [] raiseOnError run.order = none := by
    unfold escapedTaskExc
    rw [hnil]
    cases raiseOnError <;> rfl
  have hrt : runTasks reqFn common [] run.order = [] := by
    rw [hnil]; rfl
  rw [perform_batch_request_no_exc reqFn common [] timeout raiseOnError run he hdl,
    hrt]

theorem retryLoop_allTransport (req : Nat → Except PyExc Bytes) (d : ℚ) :
    ∀ (fuel a : Nat) (last : Option PyExc), 1 ≤ fuel →
      (∀ k, a ≤ k → k < a + fuel → isTransportFailure (req k) = true) →
      retryLoop req d fuel a last =
        ⟨req (a + fuel - 1), fuel,
          (List.range (fuel - 1)).map (fun i => d * 2 ^ (a + i))⟩ := by
  intro fuel
  induction fuel with
  | zero => intro a last h; omega
  | succ f ih =>
    intro a last _ hall
    have ha : isTransportFailure (req a) = true := hall a le_rfl (by omega)
    rcases hr : req a with e | v
    · rw [hr] at ha
      simp only [isTransportFailure] at ha
      unfold retryLoop
      rw [hr]
      dsimp only
      rw [if_pos ha]
      by_cases hf : f = 0
      · subst hf
        rw [if_pos rfl]
        simp [hr]
      · rw [if_neg hf]
        rw [ih (a + 1) (some e) (by omega)
          (fun k hk1 hk2 => hall k (by omega) (by omega))]
        dsimp only
        have hsleeps : (List.range ((f + 1) - 1)).map (fun i => d * 2 ^ (a + i)) =
            d * 2 ^ a ::
              (List.range (f - 1)).map (fun i => d * 2 ^ (a + 1 + i)) := by
          have h1 : (f + 1) - 1 = (f - 1) + 1 := by omega
          rw [h1, List.range_succ_eq_map, List.map_cons, List.map_map]
          refine congrArg₂ _ (by rw [Nat.add_zero]) ?_
          refine List.map_congr_left ?_
          intro i _
          show d * 2 ^ (a + (i + 1)) = d * 2 ^ (a + 1 + i)
          rw [show a + (i + 1) = a + 1 + i from by omega]
        rw [hsleeps]
        have hresult : a + 1 + f - 1 = a + (f + 1) - 1 := by omega
        rw [hresult]
    · rw [hr] at ha
      exact absurd ha (by simp [isTransportFailure])

theorem retryLoop_nonTransport (req : Nat → Except PyExc Bytes) (d : ℚ) :
    ∀ (j fuel a : Nat) (last : Option PyExc) (e : PyExc), j < fuel →
      (∀ k, a ≤ k → k < a + j → isTransportFailure (req k) = true) →
      req (a + j) = .error e → e.isTransportError = false →
      retryLoop req d fuel a last =
        ⟨.error e, j + 1, (List.range j).map (fun i => d * 2 ^ (a + i))⟩ := by
  intro j
  induction j with
  | zero =>
    intro fuel a last e hj _ hre hnt
    rcases fuel with _ | f
    · omega
    · rw [Nat.add_zero] at hre
      unfold retryLoop
      rw [hre]
      dsimp only
      rw [if_neg (by simp [hnt])]
      rfl
  | succ j ih =>
    intro fuel a last e hj hall hre hnt
    rcases fuel with _ | f
    · omega
    · have ha : isTransportFailure (req a) = true := hall a le_rfl (by omega)
      rcases hr : req a with e0 | v
      · rw [hr] at ha
        simp only [isTransportFailure] at ha
        unfold retryLoop
        rw [hr]
        dsimp only
        rw [if_pos ha, if_neg (by omega)]
        rw [ih f (a + 1) (some e0) e (by omega)
          (fun k hk1 hk2 => hall k (by omega) (by omega))
          (by rw [show a + 1 + j = a + (j + 1) from by omega]; exact hre) hnt]
        dsimp only
        have hsleeps : (List.range (j + 1)).map (fun i => d * 2 ^ (a + i)) =
            d * 2 ^ a :: (List.range j).map (fun i => d * 2 ^ (a + 1 + i)) := by
          rw [List.range_succ_eq_map, List.map_cons, List.map_map]
          refine congrArg₂ _ (by rw [Nat.add_zero]) ?_
          refine List.map_congr_left ?_
          intro i _
          show d * 2 ^ (a + (i + 1)) = d * 2 ^ (a + 1 + i)
          rw [show a + (i + 1) = a + 1 + i from by omega]
        rw [hsleeps]
      · rw [hr] at ha
        exact absurd ha (by simp [isTransportFailure])

/-- Claim C3: when every attempt raises a `TransportError`,
`request_with_retry` invokes `request` exactly `max_retries` times,
attempt `k` is followed by a sleep of `retry_delay * 2 ^ k` except after
the last attempt, and the last attempt's `TransportError` is re-raised;
an error that is not a `TransportError` propagates immediately after a
single attempt, with no sleeps. -/
theorem request_with_retry_claim (req : Nat → Except PyExc Bytes)
    (n : Nat) (d : ℚ) (hn : 1 ≤ n) :
    ((∀ k, k < n → isTransportFailure (req k) = true) →
      request_with_retry req n d =
        ⟨req (n - 1), n, (List.range (n - 1)).map (fun k => d * 2 ^ k)⟩) ∧
    ∀ e, req 0 = .error e → e.isTransportError = false →
      request_with_retry req n d = ⟨.error e, 1, []⟩ := by
  constructor
  · intro hall
    unfold request_with_retry
    rw [retryLoop_allTransport req d n 0 none hn
      (fun k _ hk => hall k (by omega))]
    congr 1
    · rw [Nat.zero_add]
    · refine List.map_congr_left ?_
      intro i _
      rw [Nat.zero_add]
  · intro e hre hnt
    unfold request_with_retry
    rw [retryLoop_nonTransport req d 0 n 0 none e hn (by omega) hre hnt]
    rfl

theorem request_with_retry_claim_witness :
    (1 ≤ 3) ∧
    (request_with_retry (fun k => .error (.transportError (toString k))) 3 1 =
      ⟨.error (.transportError "2"), 3, [1, 2]⟩) ∧
    (request_with_retry (fun _ => .error (.otherError "boom")) 3 1 =
      ⟨.error (.otherError "boom"), 1, []⟩) := by
  refine ⟨by omega, ?_, ?_⟩
  · have h := (request_with_retry_claim
      (fun k => .error (.transportError (toString k))) 3 1 (by omega)).1
      (by decide)
    simpa using h
  · exact (request_with_retry_claim (fun _ => .error (.otherError "boom")) 3 1
      (by omega)).2 (.otherError "boom") rfl rfl

/-- Claim C4 (refuted — code bug): with `max_retries = 0` the attempt
loop body never runs, so `request` is invoked zero times (not once as
the claim states) and the trailing `raise last_error` executes
`raise None`, a Python `TypeError`, instead of returning the single
invocation's result. -/
theorem request_with_retry_zero :
    request_with_retry (fun _ => .ok [1]) 0 1 =
      ⟨.error (.typeError "exceptions must derive from BaseException"), 0, []⟩ ∧
    (request_with_retry (fun _ => .ok [1]) 0 1).calls = 0 := ⟨rfl, rfl⟩


/-- Claim C5: with an effective truthy timeout, the send/receive body of
`request` runs inside a `move_on_after` scope: if the scope's
`cancel_called` flag is set on exit the call raises `TimeoutError`, and
otherwise (with the transport not failing) it returns the concatenation
of all byte chunks yielded by the transport's `receive()`. -/
theorem request_timeout_claim (t : TransportBehavior)
    (timeout cfg : Option ℚ) (x : ℚ) (dl : Bool)
    (hx : effectiveTimeout timeout cfg = some x) (hx0 : x ≠ 0) :
    (dl = true →
      perform_request_with_timeout t timeout cfg dl =
        .error (.timeoutError (timeoutMsg x))) ∧
    (dl = false → t.connectExc = none → t.sendExc = none → t.recvExc = none →
      perform_request_with_timeout t timeout cfg dl =
        .ok (t.recvChunks.foldl (· ++ ·) [])) := by
  constructor
  · intro hdl
    unfold perform_request_with_timeout
    rw [hx]
    dsimp only
    rw [if_pos hx0, hdl]
    rfl
  · intro hdl hc hs hr
    unfold perform_request_with_timeout
    rw [hx]
    dsimp only
    rw [if_pos hx0, hdl, if_neg (by simp)]
    unfold perform_request get_transport_error requestBody
    rw [hc, hs, hr]

theorem request_timeout_claim_witness :
    (effectiveTimeout (some 2) none = some 2) ∧ ((2 : ℚ) ≠ 0) ∧
    (perform_request_with_timeout ⟨none, none, [[1], [2, 3]], none⟩
      (some 2) none true = .error (.timeoutError (timeoutMsg 2))) ∧
    (perform_request_with_timeout ⟨none, none, [[1], [2, 3]], none⟩
      (some 2) none false = .ok [1, 2, 3]) := by
  have h := request_timeout_claim ⟨none, none, [[1], [2, 3]], none⟩
    (some 2) none 2 true rfl (by norm_num)
  have h' := request_timeout_claim ⟨none, none, [[1], [2, 3]], none⟩
    (some 2) none 2 false rfl (by norm_num)
  exact ⟨rfl, by norm_num, h.1 rfl, by have := h'.2 rfl rfl rfl rfl; simpa using this⟩

/-- Claim C6 counterexample: on the unregistered name "http", both
`get` and `create_transport` fail with the generic built-in `KeyError`,
which is not an error of the pynector taxonomy — refuting the claim
that they fail with a distinct taxonomy-level "unknown backend" error
kind. -/
theorem registry_get_raises_generic_keyError :
    emptyRegistry.get "http" = .error (.keyError "http") ∧
    emptyRegistry.create_transport "http" [] = .error (.keyError "http") ∧
    (PyExc.keyError "http").isPynectorError = false := ⟨rfl, rfl, rfl⟩

/-- Claim C6 (amended): for every name not registered in the factory
registry, both `get(name)` and `create_transport(name, options)` fail
with the generic built-in `KeyError` for that name — a generic lookup
error that is not part of the library's error taxonomy. -/
theorem registry_unknown_name_keyError (r : TransportFactoryRegistry)
    (name : String) (kwargs : Options) (h : r.factories name = none) :
    r.get name = .error (.keyError name) ∧
    r.create_transport name kwargs = .error (.keyError name) ∧
    (PyExc.keyError name).isPynectorError = false := by
  have hg : r.get name = .error (.keyError name) := by
    unfold TransportFactoryRegistry.get
    rw [h]
  refine ⟨hg, ?_, rfl⟩
  unfold TransportFactoryRegistry.create_transport
  rw [hg]

theorem registry_unknown_name_keyError_witness :
    emptyRegistry.get "ws" = .error (.keyError "ws") ∧
    emptyRegistry.create_transport "ws" [] = .error (.keyError "ws") ∧
    (PyExc.keyError "ws").isPynectorError = false :=
  registry_unknown_name_keyError emptyRegistry "ws" [] rfl

/-- Claim C7: a client constructed with an injected transport does not
own it, and for every non-owning client neither `aclose` nor
`__aexit__` performs any transport operation (in particular no
`disconnect`) or changes any state; when the client owns its transport,
both close paths call `disconnect` on it and drop the reference. -/
theorem close_ownership_claim (s : ClientState) :
    (∀ t : Nat, (initClient (some t)).ownsTransport = false) ∧
    (s.ownsTransport = false → aclose s = (s, []) ∧ aexit s = (s, [])) ∧
    (s.ownsTransport = true → ∀ u, s.transport = some u →
      aclose s = ({ s with transport := none, transportInitialized := false },
        [.disconnect u]) ∧
      aexit s = ({ s with transport := none, transportInitialized := false },
        [.disconnect u])) := by
  refine ⟨fun t => rfl, ?_, ?_⟩
  · intro hown
    unfold aclose aexit
    rw [hown]
    exact ⟨rfl, rfl⟩
  · intro hown u hu
    unfold aclose aexit
    rw [hown, hu]
    exact ⟨rfl, rfl⟩

theorem close_ownership_claim_witness :
    (aclose ⟨some 7, false, true⟩ = (⟨some 7, false, true⟩, []) ∧
      aexit ⟨some 7, false, true⟩ = (⟨some 7, false, true⟩, [])) ∧
    (aclose ⟨some 3, true, true⟩ = (⟨none, true, false⟩, [.disconnect 3]) ∧
      aexit ⟨some 3, true, true⟩ = (⟨none, true, false⟩, [.disconnect 3])) :=
  ⟨(close_ownership_claim ⟨some 7, false, true⟩).2.1 rfl,
    (close_ownership_claim ⟨some 3, true, true⟩).2.2 rfl 3 rfl⟩

/-- Witness for the empty-batch theorem at a concrete schedule and
transport oracle. -/
theorem batch_request_empty_witness :
    spawnedTasks ([] : List (Bytes × Options)) = [] ∧
    perform_batch_request (fun p _ => .ok p) [] [] (some 2) true
      ⟨[], false⟩ = .ok [] :=
  batch_request_empty (fun p _ => .ok p) [] (some 2) true ⟨[], false⟩
    (fun i hi => absurd hi (by simp)) rfl

/-- Claim C9: `_get_config` returns the instance-config value whenever
the key is present there (even a stored `None`), otherwise the
environment collaborator's value when that is not `None`, and otherwise
the supplied default. -/
theorem get_config_claim (cfg : String → Option PyVal) (env : String → PyVal)
    (key : String) (dflt : PyVal) :
    (∀ v, cfg key = some v → get_config cfg env key dflt = v) ∧
    (cfg key = none → ∀ d, env key = some d →
      get_config cfg env key dflt = some d) ∧
    (cfg key = none → env key = none → get_config cfg env key dflt = dflt) := by
  refine ⟨?_, ?_, ?_⟩
  · intro v hv
    unfold get_config
    rw [hv]
  · intro hc d hd
    unfold get_config
    rw [hc, hd]
  · intro hc hd
    unfold get_config
    rw [hc, hd]

theorem get_config_claim_witness :
    (get_config (fun k => if k = "timeout" then some (some 30) else none)
      (fun k => if k = "retries" then some 9 else none) "timeout" none = some 30) ∧
    (get_config (fun k => if k = "timeout" then some (some 30) else none)
      (fun k => if k = "retries" then some 9 else none) "retries" none = some 9) ∧
    (get_config (fun k => if k = "timeout" then some (some 30) else none)
      (fun k => if k = "retries" then some 9 else none) "other" (some 5) = some 5) :=
  ⟨(get_config_claim _ _ "timeout" none).1 (some 30) (by decide),
    (get_config_claim _ _ "retries" none).2.1 (by decide) 9 (by decide),
    (get_config_claim _ _ "other" (some 5)).2.2 (by decide) (by decide)⟩

/-- Claim C10: constructing a client with an injected transport never
raises `ConfigurationError` for the `transport_type` argument, whatever
the string and the registry contents; the registered-names validation
runs only when the client will own (create) its transport, and then an
unknown type does raise `ConfigurationError`. -/
theorem init_injected_no_validation (transportType : String)
    (names : List String) (tid : Nat) :
    pynectorInitError (some tid) transportType names = none ∧
    (transportType ∉ names →
      ∃ m, pynectorInitError none transportType names =
        some (.configurationError m)) := by
  constructor
  · rfl
  · intro hmem
    refine ⟨"Invalid transport type: " ++ transportType ++ ". Available types: "
      ++ String.intercalate ", " names, ?_⟩
    unfold pynectorInitError validate_config
    rw [if_pos (show (initClient none).ownsTransport = true from rfl), if_neg hmem]

theorem init_injected_no_validation_witness :
    pynectorInitError (some 7) "bogus" ["http", "sdk"] = none ∧
    ∃ m, pynectorInitError none "bogus" ["http", "sdk"] =
      some (.configurationError m) :=
  ⟨(init_injected_no_validation "bogus" ["http", "sdk"] 7).1,
    (init_injected_no_validation "bogus" ["http", "sdk"] 7).2 (by decide)⟩

end Pynector
